import Mathlib

/-
Verification of the wasmer runtime C API boundary layer
(lib/runtime-c-api/src/instance.rs) against its design specification.

The Rust source is shallowly embedded: each extern "C" entry point becomes a
pure Lean function from its (modelled) inputs and the pre-state of the
locations it may write (the instance out-pointer, the results buffer, the
thread-local last-error slot) to its result and the post-state of those
locations.  Raw pointers that may be null are modelled as a Bool null-flag or
an Option; byte strings crossing the boundary are lists of byte values
(Nat < 256); functions of the wider runtime that this file only calls
(compilation, instantiation, the export iterator, the metering points-limit
setter) are either oracle parameters or definitions marked
"Modelled from the spec".  A Rust panic (unwrap on Err, unimplemented!,
out-of-bounds slice index) is a distinct outcome constructor, never conflated
with an ERROR return.
-/

set_option autoImplicit false

namespace Wasmer

/-- Byte strings crossing the C boundary: lists of byte values.  The Rust code
converts them to `&str`; since `&str` equality is byte equality of the UTF-8
encoding, keying maps by the byte list is observationally identical for valid
UTF-8 input, so names stay in byte form throughout the model. -/
abbrev ByteStr := List Nat

/-- isCont b holds when b is a UTF-8 continuation byte (0x80..0xBF). -/
def isCont (b : Nat) : Bool := 0x80 ≤ b && b ≤ 0xBF

/-- utf8Valid l decides whether the byte list l is well-formed UTF-8, with the
exact acceptance set of Rust's std::str::from_utf8 (RFC 3629: no overlong
forms, no surrogates, nothing above U+10FFFF). -/
def utf8Valid : List Nat → Bool
  | [] => true
  | b0 :: tail =>
    if b0 ≤ 0x7F then utf8Valid tail else
    match tail with
    | [] => false
    | b1 :: tail1 =>
      if 0xC2 ≤ b0 && b0 ≤ 0xDF then isCont b1 && utf8Valid tail1 else
      match tail1 with
      | [] => false
      | b2 :: tail2 =>
        if b0 = 0xE0 then
          (0xA0 ≤ b1 && b1 ≤ 0xBF) && isCont b2 && utf8Valid tail2
        else if (0xE1 ≤ b0 && b0 ≤ 0xEC) || b0 = 0xEE || b0 = 0xEF then
          isCont b1 && isCont b2 && utf8Valid tail2
        else if b0 = 0xED then
          (0x80 ≤ b1 && b1 ≤ 0x9F) && isCont b2 && utf8Valid tail2
        else
          match tail2 with
          | [] => false
          | b3 :: tail3 =>
            if b0 = 0xF0 then
              (0x90 ≤ b1 && b1 ≤ 0xBF) && isCont b2 && isCont b3 && utf8Valid tail3
            else if 0xF1 ≤ b0 && b0 ≤ 0xF3 then
              isCont b1 && isCont b2 && isCont b3 && utf8Valid tail3
            else if b0 = 0xF4 then
              (0x80 ≤ b1 && b1 ≤ 0x8F) && isCont b2 && isCont b3 && utf8Valid tail3
            else
              false

/-- Result status of every fallible C API call
(wasmer_result_t in wasmer-runtime-c-api). -/
inductive wasmer_result_t where
  | WASMER_OK
  | WASMER_ERROR
  deriving DecidableEq, Repr

/-- CompilationOptions (instance.rs lines 200-206): the flat middleware /
metering configuration record.  gas_limit is a u64, unmetered_locals a usize;
both are modelled as Nat since no arithmetic is performed on them here. -/
structure CompilationOptions where
  gas_limit : Nat
  unmetered_locals : Nat
  opcode_trace : Bool
  metering : Bool
  runtime_breakpoints : Bool
  deriving DecidableEq, Repr

/-- One middleware pass pushed onto a MiddlewareChain
(instance.rs lines 259-273).  Metering::new receives the fixed static
OPCODE_COSTS table plus the configured unmetered_locals threshold; only the
latter varies, so only it is carried here. -/
inductive MiddlewarePass where
  | metering (unmetered_locals : Nat)
  | runtimeBreakpointHandler
  | opcodeTracer
  deriving DecidableEq, Repr

/-- A middleware chain is the ordered list of passes pushed onto it. -/
abbrev MiddlewareChain := List MiddlewarePass

/-- prepare_middleware_chain_generator (instance.rs lines 251-279): returns a
closure that, on each invocation, builds a fresh MiddlewareChain and pushes
the metering pass (build has the "metering" feature, which also gates
wasmer_instantiate_with_options itself), the breakpoint handler and the opcode
tracer, each guarded by its flag, in that textual order.  The closure captures
only the (immutable) options record, which the embedding makes explicit by
returning a function out of Unit. -/
def prepare_middleware_chain_generator (options : CompilationOptions) :
    Unit → MiddlewareChain :=
  fun _ =>
    let chain : MiddlewareChain := []
    let chain := if options.metering then
        chain ++ [MiddlewarePass.metering options.unmetered_locals] else chain
    let chain := if options.runtime_breakpoints then
        chain ++ [MiddlewarePass.runtimeBreakpointHandler] else chain
    let chain := if options.opcode_trace then
        chain ++ [MiddlewarePass.opcodeTracer] else chain
    chain

/-- Binding handle crossing the boundary
(wasmer_runtime_core::export::Export, as built by the tag dispatch of
instance.rs lines 156-173).  Each constructor carries an abstract handle
identifier for the shared underlying resource; cloning a binding shares the
resource, which the model renders as plain equality of handles. -/
inductive Export where
  | func (id : Nat)
  | memory (id : Nat)
  | global (id : Nat)
  | table (id : Nat)
  deriving DecidableEq, Repr

/-- wasmer_import_t as consumed by wasmer_instantiate.  The C struct holds two
byte-array names plus a (tag, union-of-pointers) pair; the four-way match of
instance.rs lines 156-173 dereferences the pointer selected by the tag and
clones the pointee into an Export.  The model carries the Export that the
dispatch produces; a tag that disagrees with the union contents is undefined
behaviour at the C boundary and is not modelled. -/
structure wasmer_import_t where
  module_name : ByteStr
  import_name : ByteStr
  exportValue : Export
  deriving DecidableEq, Repr

/-- Modelled from the spec: wasmer_runtime_core::import::Namespace
(lib/runtime-core, not under src/) is a name-to-Binding mapping whose insert
overwrites any existing binding for the name (spec section 4.1:
"inserting/overwriting importName→Binding"; invariant (3): at most one Binding
per name, later registration overwrites earlier).  Modelled as an association
list with overwrite-on-insert, keyed by the name's UTF-8 bytes. -/
abbrev Namespace := List (ByteStr × Export)

/-- The namespaces accumulator of wasmer_instantiate (a
HashMap<&str, Namespace>, instance.rs line 126), and equally the finished
ImportObject it is registered into (lines 176-178): module name to Namespace.
Keys are unique by construction, so the HashMap's arbitrary iteration order at
line 176 is unobservable and an association list is a faithful model. -/
abbrev NamespaceMap := List (ByteStr × Namespace)

/-- Namespace::insert: overwrite the binding for key n if present, else append. -/
def nsInsert : Namespace → ByteStr → Export → Namespace
  | [], n, e => [(n, e)]
  | (k, v) :: rest, n, e =>
    if k = n then (k, e) :: rest else (k, v) :: nsInsert rest n e

/-- Lookup in a Namespace. -/
def nsLookup : Namespace → ByteStr → Option Export
  | [], _ => none
  | (k, v) :: rest, n => if k = n then some v else nsLookup rest n

/-- Lookup in the module-name-to-Namespace map. -/
def nmLookup : NamespaceMap → ByteStr → Option Namespace
  | [], _ => none
  | (k, v) :: rest, m => if k = m then some v else nmLookup rest m

/-- namespaces.entry(module_name).or_insert_with(Namespace::new) followed by
namespace.insert(import_name, export) (instance.rs lines 153 and 174). -/
def nmInsertExport : NamespaceMap → ByteStr → ByteStr → Export → NamespaceMap
  | [], m, n, e => [(m, nsInsert [] n e)]
  | (k, ns) :: rest, m, n, e =>
    if k = m then (k, nsInsert ns n e) :: rest
    else (k, ns) :: nmInsertExport rest m n e

/-- Composite lookup: the binding registered under module name m, import
name n. -/
def nmLookup2 (acc : NamespaceMap) (m n : ByteStr) : Option Export :=
  match nmLookup acc m with
  | none => none
  | some ns => nsLookup ns n

/-- The import-processing loop of wasmer_instantiate (instance.rs lines
127-175): for each import, validate both names as UTF-8 (returning ERROR with
the corresponding message on the first failure) and insert the dispatched
Export into the namespaces accumulator. -/
def processImports : List wasmer_import_t → NamespaceMap →
    Except String NamespaceMap
  | [], acc => Except.ok acc
  | imp :: rest, acc =>
    if !utf8Valid imp.module_name then
      Except.error "error converting module name to string"
    else if !utf8Valid imp.import_name then
      Except.error "error converting import_name to string"
    else
      processImports rest
        (nmInsertExport acc imp.module_name imp.import_name imp.exportValue)

/-- A running instance (wasmer_runtime::Instance, lib/runtime, not under
src/), reduced to the two pieces this boundary layer observes: its exports in
the instance's own export-declaration order (spec section 4.5), and the
metering points limit (cost budget) field that set_points_limit writes. -/
structure Instance where
  exports : List (ByteStr × Export)
  points_limit : Nat
  deriving DecidableEq, Repr

/-- Modelled from the spec: wasmer_middleware_common::metering::set_points_limit
(lib/middleware-common, not under src/) "applies gas_limit as the instance's
initial cost budget" (spec section 4.4), i.e. writes the limit into the
instance's metering state. -/
def set_points_limit (inst : Instance) (limit : Nat) : Instance :=
  { inst with points_limit := limit }

/-- An abstract compiled module (wasmer_runtime_core module handle). -/
structure Module where
  id : Nat
  deriving DecidableEq, Repr

/-- Modelled from the spec: wasmer_runtime::instantiate (lib/runtime, not
under src/) compiles the bytes and instantiates against the import object.
Spec section 4.4 makes a zero-length byte string a caller error ("validates
bytes is non-null and non-empty conceptually") and lists malformed bytecode as
a failure: the empty byte string is not a well-formed module, so instantiation
of it fails.  Behaviour on non-empty bytes is the oracle parameter. -/
def runtime_instantiate (oracle : ByteStr → NamespaceMap → Except String Instance)
    (bytes : ByteStr) (io : NamespaceMap) : Except String Instance :=
  if bytes.isEmpty then Except.error "Validation error: unexpected end of input"
  else oracle bytes io

/-- Registration loop of wasmer_instantiate (instance.rs lines 176-178): each
accumulated namespace is registered into a fresh ImportObject by the register
method of import_object.  Keys are unique, so registration amounts to
rebuilding the same mapping. -/
def registerAll (nsMap : NamespaceMap) : NamespaceMap :=
  nsMap.foldl (fun io entry => io ++ [(entry.1, entry.2)]) []

/-- wasmer_instantiate (instance.rs lines 111-191).  Inputs: the null-flag of
wasm_bytes, the pointed-to bytes, the imports array, the runtime oracle, and
the pre-state of the instance out-pointer and of the thread-local last-error
slot.  Output: the returned status and the post-state of those two
locations. -/
def wasmer_instantiate
    (oracle : ByteStr → NamespaceMap → Except String Instance)
    (wasmBytesNull : Bool) (wasmBytes : ByteStr)
    (imports : List wasmer_import_t)
    (instOutPre : Option Instance) (lastErrorPre : Option String) :
    wasmer_result_t × Option Instance × Option String :=
  if wasmBytesNull then
    (wasmer_result_t.WASMER_ERROR, instOutPre, some "wasm bytes ptr is null")
  else
    match processImports imports [] with
    | Except.error msg => (wasmer_result_t.WASMER_ERROR, instOutPre, some msg)
    | Except.ok nsMap =>
      match runtime_instantiate oracle wasmBytes (registerAll nsMap) with
      | Except.error msg => (wasmer_result_t.WASMER_ERROR, instOutPre, some msg)
      | Except.ok newInstance =>
        (wasmer_result_t.WASMER_OK, some newInstance, lastErrorPre)

/-- Modelled from the spec: wasmer_runtime_core::compile_with (lib/runtime-core,
not under src/) compiles the bytes with the selected compiler, whose middleware
chain generator it invokes.  As for runtime_instantiate, the empty byte string
is malformed bytecode and fails to compile; non-empty bytes are decided by the
oracle.  The error payload is discarded by the caller (instance.rs line 231
matches Err(_)), so it is Unit. -/
def compile_with (oracle : ByteStr → MiddlewareChain → Except Unit Module)
    (bytes : ByteStr) (chain : MiddlewareChain) : Except Unit Module :=
  if bytes.isEmpty then Except.error () else oracle bytes chain

/-- wasmer_instantiate_with_options (instance.rs lines 211-249).  The compiler
construction (get_compiler, lines 281-293) wraps the chain generator from
prepare_middleware_chain_generator; compilation and module instantiation are
oracle parameters; GLOBAL_IMPORT_OBJECT is passed in as the global import
object's current contents.  Output as for wasmer_instantiate. -/
def wasmer_instantiate_with_options
    (compileOracle : ByteStr → MiddlewareChain → Except Unit Module)
    (instantiateOracle : Module → NamespaceMap → Except String Instance)
    (globalImportObject : NamespaceMap)
    (wasmBytesNull : Bool) (wasmBytes : ByteStr)
    (options : CompilationOptions)
    (instOutPre : Option Instance) (lastErrorPre : Option String) :
    wasmer_result_t × Option Instance × Option String :=
  if wasmBytesNull then
    (wasmer_result_t.WASMER_ERROR, instOutPre, some "wasm bytes ptr is null")
  else
    match compile_with compileOracle wasmBytes
        (prepare_middleware_chain_generator options ()) with
    | Except.error _ =>
      (wasmer_result_t.WASMER_ERROR, instOutPre, some "compile error")
    | Except.ok newModule =>
      match instantiateOracle newModule globalImportObject with
      | Except.error msg =>
        (wasmer_result_t.WASMER_ERROR, instOutPre, some msg)
      | Except.ok newInstance =>
        (wasmer_result_t.WASMER_OK,
         some (set_points_limit newInstance options.gas_limit),
         lastErrorPre)

/-- Runtime value (wasmer_runtime::Value).  Integer payloads are the i32/i64
contents as mathematical integers; float payloads are carried as their raw bit
patterns (the marshalling code only moves them, so their numeric reading never
matters); V128 carries its 128 raw bits. -/
inductive Value where
  | I32 (x : Int)
  | I64 (x : Int)
  | F32 (bits : Nat)
  | F64 (bits : Nat)
  | V128 (bits : Nat)
  deriving DecidableEq, Repr

/-- Value tag of the C-side tagged value (wasmer_value_tag). -/
inductive wasmer_value_tag where
  | WASM_I32
  | WASM_I64
  | WASM_F32
  | WASM_F64
  deriving DecidableEq, Repr

/-- Payload union of the C-side tagged value (wasmer_value).  Each constructor
is one union field; every construction site in instance.rs pairs the tag with
the matching field, which the sum type renders directly. -/
inductive wasmer_value where
  | I32 (x : Int)
  | I64 (x : Int)
  | F32 (bits : Nat)
  | F64 (bits : Nat)
  deriving DecidableEq, Repr

/-- C-side tagged value (wasmer_value_t): tag plus union payload. -/
structure wasmer_value_t where
  tag : wasmer_value_tag
  value : wasmer_value
  deriving DecidableEq, Repr

/-- Result marshalling of wasmer_instance_call (instance.rs lines 423-441):
the match on results_vec[0] building the C-side tagged value.  The V128 arm is
unimplemented! — a panic, rendered as none; the four supported kinds always
produce a value. -/
def marshalResultValue : Value → Option wasmer_value_t
  | Value.I32 x => some ⟨wasmer_value_tag.WASM_I32, wasmer_value.I32 x⟩
  | Value.I64 x => some ⟨wasmer_value_tag.WASM_I64, wasmer_value.I64 x⟩
  | Value.F32 b => some ⟨wasmer_value_tag.WASM_F32, wasmer_value.F32 b⟩
  | Value.F64 b => some ⟨wasmer_value_tag.WASM_F64, wasmer_value.F64 b⟩
  | Value.V128 _ => none

/-- Outcome of one extern "C" call: either a returned wasmer_result_t, or a
Rust panic with its message (unwrap on Err, unimplemented!, out-of-bounds
slice index) — which unwinds out of the extern "C" function and takes the
process down instead of reporting through the error channel. -/
inductive FfiOutcome where
  | ret (r : wasmer_result_t)
  | panicked (msg : String)
  deriving DecidableEq, Repr

/-- Post-state of one wasmer_instance_call: its outcome, the last-error slot,
and the contents of the caller's results buffer (a list of length
results_len). -/
structure CallResultState where
  outcome : FfiOutcome
  last_error : Option String
  results_buf : List wasmer_value_t
  deriving DecidableEq, Repr

/-- wasmer_instance_call (instance.rs lines 376-467).  Inputs: the null-flags
of instance and params, the bytes the C string at name points to (none for a
null pointer; the list is what CStr::from_ptr reads up to the terminator), the
pre-state of the caller's results buffer, the outcome of the inner
Instance::call (an oracle: lib/runtime code consuming the converted params),
and the pre-state of the last-error slot.  Faithful control flow: the three
null checks in order; params conversion (infallible, feeds only the oracle);
CStr::from_ptr(name).to_str().unwrap() — a panic when the bytes are not valid
UTF-8; the call; on Ok with a non-empty result vector, marshal results_vec[0]
(panicking on V128) and store it at results[0] (panicking when results_len is
0); on Err, update_last_error and return ERROR.  The opcode-tracer bookkeeping
around the call only prints and changes no modelled state. -/
def wasmer_instance_call
    (instanceNull : Bool) (nameBytes : Option ByteStr) (paramsNull : Bool)
    (resultsBufPre : List wasmer_value_t)
    (callResult : Except String (List Value))
    (lastErrorPre : Option String) : CallResultState :=
  if instanceNull then
    ⟨FfiOutcome.ret wasmer_result_t.WASMER_ERROR,
     some "instance ptr is null", resultsBufPre⟩
  else
    match nameBytes with
    | none =>
      ⟨FfiOutcome.ret wasmer_result_t.WASMER_ERROR,
       some "name ptr is null", resultsBufPre⟩
    | some nb =>
      if paramsNull then
        ⟨FfiOutcome.ret wasmer_result_t.WASMER_ERROR,
         some "params ptr is null", resultsBufPre⟩
      else if !utf8Valid nb then
        ⟨FfiOutcome.panicked "called Result::unwrap on an Err value",
         lastErrorPre, resultsBufPre⟩
      else
        match callResult with
        | Except.error err =>
          ⟨FfiOutcome.ret wasmer_result_t.WASMER_ERROR, some err, resultsBufPre⟩
        | Except.ok resultsVec =>
          match resultsVec with
          | [] => ⟨FfiOutcome.ret wasmer_result_t.WASMER_OK,
                   lastErrorPre, resultsBufPre⟩
          | v :: _ =>
            match marshalResultValue v with
            | none =>
              ⟨FfiOutcome.panicked "calling function with V128 parameter",
               lastErrorPre, resultsBufPre⟩
            | some ret =>
              match resultsBufPre with
              | [] => ⟨FfiOutcome.panicked "index out of bounds",
                       lastErrorPre, resultsBufPre⟩
              | _ :: rest =>
                ⟨FfiOutcome.ret wasmer_result_t.WASMER_OK,
                 lastErrorPre, ret :: rest⟩

/-- NamedExport (runtime-c-api export module): export name, shared clone of
the export binding, and the raw back-pointer to the owning instance.  The
instance pointer is modelled as an abstract address (Nat). -/
structure NamedExport where
  name : ByteStr
  exportValue : Export
  instancePtr : Nat
  deriving DecidableEq, Repr

/-- Post-state of one wasmer_instance_exports call: the exports out-pointer
(none while unwritten) and the last-error slot. -/
structure ExportsResultState where
  exports_out : Option (List NamedExport)
  last_error : Option String
  deriving DecidableEq, Repr

/-- wasmer_instance_exports (instance.rs lines 513-535).  Inputs: the
null-flag and address of the instance pointer, the pointed-to instance
(irrelevant when null), and the pre-state of the exports out-pointer and
last-error slot.  On a null instance it plainly returns; otherwise it pushes
one NamedExport per entry of the instance's export iterator — name clone,
export clone, instance back-pointer — in iterator order (the instance's own
export-declaration order: Instance::exports() of lib/runtime-core, modelled
per spec section 4.5 as the instance's export list), and writes the collection
to the out-pointer. -/
def wasmer_instance_exports
    (instanceNull : Bool) (instancePtr : Nat) (inst : Instance)
    (exportsOutPre : Option (List NamedExport))
    (lastErrorPre : Option String) : ExportsResultState :=
  if instanceNull then
    ⟨exportsOutPre, lastErrorPre⟩
  else
    ⟨some (inst.exports.map (fun p => ⟨p.1, p.2, instancePtr⟩)), lastErrorPre⟩

/-- Binding of the LAST import in the list carrying the given module name
and import name — the reference value for last-write-wins registration
(spec section 4.1, invariant (3)). -/
def lastMatch : List wasmer_import_t → ByteStr → ByteStr → Option Export
  | [], _, _ => none
  | imp :: rest, m, n =>
    match lastMatch rest m n with
    | some e => some e
    | none =>
      if imp.module_name = m ∧ imp.import_name = n then some imp.exportValue
      else none

/-- A namespace holds at most one binding per import name: its key list has no
duplicates. -/
def nsKeysNodup (ns : Namespace) : Prop := (ns.map Prod.fst).Nodup

section Lemmas

/-- Inserting at key n yields n's binding. -/
lemma nsLookup_nsInsert_self (ns : Namespace) (n : ByteStr) (e : Export) :
    nsLookup (nsInsert ns n e) n = some e := by
  induction ns with
  | nil => simp [nsInsert, nsLookup]
  | cons hd tl ih =>
    by_cases h : hd.1 = n
    · simp [nsInsert, nsLookup, h]
    · simp [nsInsert, nsLookup, h, ih]

/-- Inserting at key n leaves other keys' bindings unchanged. -/
lemma nsLookup_nsInsert_other (ns : Namespace) (n n' : ByteStr) (e : Export)
    (h : n' ≠ n) : nsLookup (nsInsert ns n e) n' = nsLookup ns n' := by
  have hne : n ≠ n' := fun hh => h hh.symm
  induction ns with
  | nil => simp [nsInsert, nsLookup, hne]
  | cons hd tl ih =>
    obtain ⟨k, v⟩ := hd
    by_cases hk : k = n
    · subst hk
      simp [nsInsert, nsLookup, hne]
    · simp only [nsInsert, if_neg hk]
      by_cases hk2 : k = n'
      · simp [nsLookup, hk2]
      · simp [nsLookup, hk2, ih]

/-- Every key of nsInsert ns n e is a key of ns or n itself. -/
lemma mem_keys_nsInsert (ns : Namespace) (n x : ByteStr) (e : Export)
    (h : x ∈ (nsInsert ns n e).map Prod.fst) :
    x ∈ ns.map Prod.fst ∨ x = n := by
  induction ns with
  | nil =>
    simp only [nsInsert, List.map_cons, List.map_nil, List.mem_singleton] at h
    exact Or.inr h
  | cons hd tl ih =>
    obtain ⟨k, v⟩ := hd
    simp only [List.map_cons, List.mem_cons]
    by_cases hk : k = n
    · simp only [nsInsert, if_pos hk, List.map_cons, List.mem_cons] at h
      exact Or.inl h
    · simp only [nsInsert, if_neg hk, List.map_cons, List.mem_cons] at h
      rcases h with h | h
      · exact Or.inl (Or.inl h)
      · rcases ih h with h2 | h2
        · exact Or.inl (Or.inr h2)
        · exact Or.inr h2

/-- nsInsert preserves key uniqueness. -/
lemma nsKeysNodup_nsInsert (ns : Namespace) (n : ByteStr) (e : Export)
    (h : nsKeysNodup ns) : nsKeysNodup (nsInsert ns n e) := by
  induction ns with
  | nil => simp [nsKeysNodup, nsInsert]
  | cons hd tl ih =>
    obtain ⟨k, v⟩ := hd
    unfold nsKeysNodup at h ⊢
    rw [List.map_cons, List.nodup_cons] at h
    by_cases hk : k = n
    · simp only [nsInsert, if_pos hk, List.map_cons, List.nodup_cons]
      exact h
    · simp only [nsInsert, if_neg hk, List.map_cons, List.nodup_cons]
      refine ⟨?_, ih h.2⟩
      intro hmem
      rcases mem_keys_nsInsert tl n k e hmem with h2 | h2
      · exact h.1 h2
      · exact hk h2

/-- Inserting a binding under module m makes m map to the namespace obtained
by nsInsert into m's previous namespace (empty when m was absent). -/
lemma nmLookup_nmInsertExport_self (acc : NamespaceMap) (m n : ByteStr)
    (e : Export) :
    nmLookup (nmInsertExport acc m n e) m =
      some (nsInsert ((nmLookup acc m).getD []) n e) := by
  induction acc with
  | nil => simp [nmInsertExport, nmLookup]
  | cons hd tl ih =>
    obtain ⟨k, ns⟩ := hd
    by_cases hk : k = m
    · simp [nmInsertExport, nmLookup, hk]
    · simp [nmInsertExport, nmLookup, hk, ih]

/-- Inserting a binding under module m leaves other module names' namespaces
unchanged. -/
lemma nmLookup_nmInsertExport_other (acc : NamespaceMap) (m m' n : ByteStr)
    (e : Export) (h : m' ≠ m) :
    nmLookup (nmInsertExport acc m n e) m' = nmLookup acc m' := by
  have hne : m ≠ m' := fun hh => h hh.symm
  induction acc with
  | nil => simp [nmInsertExport, nmLookup, hne]
  | cons hd tl ih =>
    obtain ⟨k, ns⟩ := hd
    by_cases hk : k = m
    · subst hk
      simp [nmInsertExport, nmLookup, hne]
    · simp only [nmInsertExport, if_neg hk]
      by_cases hk2 : k = m'
      · simp [nmLookup, hk2]
      · simp [nmLookup, hk2, ih]

/-- Composite lookup after insertion at the same (module, name) pair yields
the inserted binding. -/
lemma nmLookup2_nmInsertExport_self (acc : NamespaceMap) (m n : ByteStr)
    (e : Export) : nmLookup2 (nmInsertExport acc m n e) m n = some e := by
  unfold nmLookup2
  rw [nmLookup_nmInsertExport_self]
  exact nsLookup_nsInsert_self _ _ _

/-- Composite lookup after insertion at a different (module, name) pair is
unchanged. -/
lemma nmLookup2_nmInsertExport_other (acc : NamespaceMap) (m n m' n' : ByteStr)
    (e : Export) (h : ¬(m' = m ∧ n' = n)) :
    nmLookup2 (nmInsertExport acc m n e) m' n' = nmLookup2 acc m' n' := by
  by_cases hm : m' = m
  · subst hm
    have hn : n' ≠ n := fun hh => h ⟨rfl, hh⟩
    unfold nmLookup2
    rw [nmLookup_nmInsertExport_self]
    cases ho : nmLookup acc m' with
    | none =>
      simp only [Option.getD_none, nsLookup_nsInsert_other _ _ _ _ hn]
      simp [nsLookup]
    | some ns0 =>
      simp only [Option.getD_some, nsLookup_nsInsert_other _ _ _ _ hn]
  · unfold nmLookup2
    rw [nmLookup_nmInsertExport_other _ _ _ _ _ hm]

/-- The final composite lookup after the import-processing loop is the
last-registered binding for the pair, falling back to the accumulator. -/
lemma processImports_lookup (imps : List wasmer_import_t) (acc out : NamespaceMap)
    (h : processImports imps acc = Except.ok out) (m n : ByteStr) :
    nmLookup2 out m n =
      match lastMatch imps m n with
      | some e => some e
      | none => nmLookup2 acc m n := by
  induction imps generalizing acc with
  | nil =>
    simp [processImports] at h
    subst h
    simp [lastMatch]
  | cons imp rest ih =>
    rw [processImports] at h
    cases h1 : utf8Valid imp.module_name with
    | false => rw [h1] at h; simp at h
    | true =>
      cases h2 : utf8Valid imp.import_name with
      | false => rw [h1, h2] at h; simp at h
      | true =>
        rw [h1, h2] at h
        simp only [Bool.not_true, Bool.false_eq_true, if_false] at h
        have hrec := ih (nmInsertExport acc imp.module_name imp.import_name
          imp.exportValue) h
        rw [hrec]
        cases hl : lastMatch rest m n with
        | some e => simp only [lastMatch, hl]
        | none =>
          simp only [lastMatch, hl]
          by_cases hmn : imp.module_name = m ∧ imp.import_name = n
          · rcases hmn with ⟨hm1, hn1⟩
            subst hm1; subst hn1
            have hc : imp.module_name = imp.module_name ∧
                imp.import_name = imp.import_name := ⟨rfl, rfl⟩
            rw [if_pos hc]
            exact nmLookup2_nmInsertExport_self acc _ _ _
          · rw [if_neg hmn]
            apply nmLookup2_nmInsertExport_other
            intro hcon
            exact hmn ⟨hcon.1.symm, hcon.2.symm⟩

/-- The import-processing loop preserves key uniqueness of every namespace. -/
lemma processImports_nodup (imps : List wasmer_import_t) (acc out : NamespaceMap)
    (hacc : ∀ m ns, nmLookup acc m = some ns → nsKeysNodup ns)
    (h : processImports imps acc = Except.ok out) :
    ∀ m ns, nmLookup out m = some ns → nsKeysNodup ns := by
  induction imps generalizing acc with
  | nil =>
    simp [processImports] at h
    subst h
    exact hacc
  | cons imp rest ih =>
    rw [processImports] at h
    cases h1 : utf8Valid imp.module_name with
    | false => rw [h1] at h; simp at h
    | true =>
      cases h2 : utf8Valid imp.import_name with
      | false => rw [h1, h2] at h; simp at h
      | true =>
        rw [h1, h2] at h
        simp only [Bool.not_true, Bool.false_eq_true, if_false] at h
        refine ih (nmInsertExport acc imp.module_name imp.import_name
          imp.exportValue) ?_ h
        intro m ns hm
        by_cases hk : m = imp.module_name
        · subst hk
          rw [nmLookup_nmInsertExport_self] at hm
          cases hm
          apply nsKeysNodup_nsInsert
          cases ho : nmLookup acc imp.module_name with
          | none => simp [ho, nsKeysNodup]
          | some ns0 => simpa [ho] using hacc imp.module_name ns0 ho
        · rw [nmLookup_nmInsertExport_other _ _ _ _ _ hk] at hm
          exact hacc m ns hm

/-- An import with an invalid name makes the processing loop fail with one of
the two conversion messages, from any accumulator. -/
lemma processImports_error_of_invalid (imps : List wasmer_import_t)
    (h : ∃ imp ∈ imps, utf8Valid imp.module_name = false ∨
      utf8Valid imp.import_name = false) :
    ∀ acc, ∃ msg, processImports imps acc = Except.error msg ∧
      (msg = "error converting module name to string" ∨
       msg = "error converting import_name to string") := by
  induction imps with
  | nil => simp at h
  | cons imp rest ih =>
    intro acc
    cases h1 : utf8Valid imp.module_name with
    | false =>
      refine ⟨"error converting module name to string", ?_, Or.inl rfl⟩
      rw [processImports, h1]
      simp
    | true =>
      cases h2 : utf8Valid imp.import_name with
      | false =>
        refine ⟨"error converting import_name to string", ?_, Or.inr rfl⟩
        rw [processImports, h1, h2]
        simp
      | true =>
        rcases h with ⟨w, hw, hinv⟩
        rcases List.mem_cons.mp hw with rfl | hw2
        · rcases hinv with hi | hi
          · rw [h1] at hi; exact absurd hi (by simp)
          · rw [h2] at hi; exact absurd hi (by simp)
        · rcases ih ⟨w, hw2, hinv⟩
            (nmInsertExport acc imp.module_name imp.import_name imp.exportValue)
            with ⟨msg, hmsg, hor⟩
          refine ⟨msg, ?_, hor⟩
          rw [processImports, h1, h2]
          simpa using hmsg

end Lemmas

/-- C1: for every MiddlewareConfig, the generator returned by
prepare_middleware_chain_generator, on every invocation, produces a fresh
middleware chain containing exactly the passes whose flags are set, in the
fixed order metering pass first, then breakpoint-handling pass, then tracing
pass; when all three flags are false (other fields unchanged) the chain is
empty; and no chain state carries over from one invocation to the next —
every invocation returns the same chain, a pure function of the config
alone. -/
theorem C1_chain_generator (options : CompilationOptions) (u u1 u2 : Unit) :
    prepare_middleware_chain_generator options u =
      (if options.metering then
        [MiddlewarePass.metering options.unmetered_locals] else []) ++
      (if options.runtime_breakpoints then
        [MiddlewarePass.runtimeBreakpointHandler] else []) ++
      (if options.opcode_trace then [MiddlewarePass.opcodeTracer] else []) ∧
    prepare_middleware_chain_generator
      ⟨options.gas_limit, options.unmetered_locals, false, false, false⟩ u = [] ∧
    prepare_middleware_chain_generator options u1 =
      prepare_middleware_chain_generator options u2 := by
  refine ⟨?_, rfl, rfl⟩
  rcases options with ⟨g, ul, ot, me, rb⟩
  cases me <;> cases rb <;> cases ot <;>
    simp [prepare_middleware_chain_generator]

/-- C2: for every bytes buffer and options record, if compilation and
instantiation both succeed, wasmer_instantiate_with_options sets the new
instance's points limit to options.gas_limit before writing the instance
handle to the out-pointer (the handle written already carries the limit) and
returns OK; if either stage fails, no gas limit is applied, the out-pointer is
not written, and ERROR is returned. -/
theorem C2_gas_limit_applied
    (co : ByteStr → MiddlewareChain → Except Unit Module)
    (iio : Module → NamespaceMap → Except String Instance)
    (gio : NamespaceMap) (bytes : ByteStr) (options : CompilationOptions)
    (instOutPre : Option Instance) (lastErrorPre : Option String) :
    (∀ m inst,
      compile_with co bytes (prepare_middleware_chain_generator options ()) =
        Except.ok m →
      iio m gio = Except.ok inst →
      wasmer_instantiate_with_options co iio gio false bytes options instOutPre
          lastErrorPre =
        (wasmer_result_t.WASMER_OK,
         some (set_points_limit inst options.gas_limit), lastErrorPre)) ∧
    (∀ inst, (set_points_limit inst options.gas_limit).points_limit =
      options.gas_limit) ∧
    (compile_with co bytes (prepare_middleware_chain_generator options ()) =
        Except.error () →
      wasmer_instantiate_with_options co iio gio false bytes options instOutPre
          lastErrorPre =
        (wasmer_result_t.WASMER_ERROR, instOutPre, some "compile error")) ∧
    (∀ m msg,
      compile_with co bytes (prepare_middleware_chain_generator options ()) =
        Except.ok m →
      iio m gio = Except.error msg →
      wasmer_instantiate_with_options co iio gio false bytes options instOutPre
          lastErrorPre =
        (wasmer_result_t.WASMER_ERROR, instOutPre, some msg)) := by
  refine ⟨?_, fun _ => rfl, ?_, ?_⟩
  · intro m inst h1 h2
    simp [wasmer_instantiate_with_options, h1, h2]
  · intro h1
    simp [wasmer_instantiate_with_options, h1]
  · intro m msg h1 h2
    simp [wasmer_instantiate_with_options, h1, h2]

/-- Witness for C2: concrete always-succeeding oracles; gas_limit 42 lands in
the written instance handle. -/
theorem C2_witness :
    wasmer_instantiate_with_options (fun _ _ => Except.ok ⟨0⟩)
      (fun _ _ => Except.ok ⟨[], 7⟩) [] false [0]
      ⟨42, 3, false, true, false⟩ none none =
    (wasmer_result_t.WASMER_OK, some (set_points_limit ⟨[], 7⟩ 42), none) :=
  (C2_gas_limit_applied (fun _ _ => Except.ok ⟨0⟩)
    (fun _ _ => Except.ok ⟨[], 7⟩) [] [0] ⟨42, 3, false, true, false⟩
    none none).1 ⟨0⟩ ⟨[], 7⟩ rfl rfl

/-- C3 counterexample: with a non-null instance and a non-null name whose
bytes are the single invalid byte 0xFF, wasmer_instance_call panics at the
unwrap of the UTF-8 conversion (instance.rs line 412) instead of returning
ERROR with a message in the error channel. -/
theorem C3_counterexample :
    (wasmer_instance_call false (some [255]) false []
        (Except.ok []) none).outcome =
      FfiOutcome.panicked "called Result::unwrap on an Err value" ∧
    ¬ ((wasmer_instance_call false (some [255]) false []
        (Except.ok []) none).outcome =
      FfiOutcome.ret wasmer_result_t.WASMER_ERROR) ∧
    (wasmer_instance_call false (some [255]) false []
        (Except.ok []) none).last_error = none := by
  decide

/-- C3 (amended): for every non-null instance and non-null name pointer whose
bytes are not valid UTF-8 text, wasmer_instance_call panics in the name
conversion (Result::unwrap on the failed UTF-8 decode), aborting rather than
returning ERROR; the error channel and the results buffer are left
unchanged. -/
theorem C3_invalid_name_panics (nameBytes : ByteStr)
    (resultsBufPre : List wasmer_value_t)
    (callResult : Except String (List Value)) (lastErrorPre : Option String)
    (h : utf8Valid nameBytes = false) :
    wasmer_instance_call false (some nameBytes) false resultsBufPre callResult
      lastErrorPre =
    ⟨FfiOutcome.panicked "called Result::unwrap on an Err value",
     lastErrorPre, resultsBufPre⟩ := by
  simp [wasmer_instance_call, h]

/-- Witness for the amended C3 at the concrete invalid byte string [255]. -/
theorem C3_witness :
    wasmer_instance_call false (some [255]) false [] (Except.ok []) none =
    ⟨FfiOutcome.panicked "called Result::unwrap on an Err value", none, []⟩ :=
  C3_invalid_name_panics [255] [] (Except.ok []) none (by decide)

/-- C10: when wasmer_instance_exports is called with a null instance pointer,
it returns without writing to the exports out-pointer and without storing any
message in the error channel: the post-state is exactly the pre-state. -/
theorem C10_null_instance_exports_noop (instancePtr : Nat) (inst : Instance)
    (exportsOutPre : Option (List NamedExport)) (lastErrorPre : Option String) :
    wasmer_instance_exports true instancePtr inst exportsOutPre lastErrorPre =
      ⟨exportsOutPre, lastErrorPre⟩ := rfl

/-- C4: every failing invocation of wasmer_instantiate leaves the instance
out-pointer untouched; every failing invocation of wasmer_instance_call
(return ERROR) leaves the results buffer untouched; and a call whose
underlying invocation succeeds with zero results leaves the results buffer
untouched (not zero-filled), whatever else the call does. -/
theorem C4_failure_leaves_outputs_untouched :
    (∀ (oracle : ByteStr → NamespaceMap → Except String Instance)
       (bn : Bool) (b : ByteStr) (imps : List wasmer_import_t)
       (instOutPre : Option Instance) (lastErrorPre : Option String),
      (wasmer_instantiate oracle bn b imps instOutPre lastErrorPre).1 =
        wasmer_result_t.WASMER_ERROR →
      (wasmer_instantiate oracle bn b imps instOutPre lastErrorPre).2.1 =
        instOutPre) ∧
    (∀ (iN : Bool) (nB : Option ByteStr) (pN : Bool)
       (rb : List wasmer_value_t) (cr : Except String (List Value))
       (le : Option String),
      (wasmer_instance_call iN nB pN rb cr le).outcome =
        FfiOutcome.ret wasmer_result_t.WASMER_ERROR →
      (wasmer_instance_call iN nB pN rb cr le).results_buf = rb) ∧
    (∀ (iN : Bool) (nB : Option ByteStr) (pN : Bool)
       (rb : List wasmer_value_t) (le : Option String),
      (wasmer_instance_call iN nB pN rb (Except.ok []) le).results_buf = rb) := by
  refine ⟨?_, ?_, ?_⟩
  · intro oracle bn b imps instOutPre lastErrorPre h
    cases bn with
    | true => simp [wasmer_instantiate]
    | false =>
      cases hpi : processImports imps [] with
      | error msg => simp [wasmer_instantiate, hpi]
      | ok nsMap =>
        cases hri : runtime_instantiate oracle b (registerAll nsMap) with
        | error msg => simp [wasmer_instantiate, hpi, hri]
        | ok inst => simp [wasmer_instantiate, hpi, hri] at h
  · intro iN nB pN rb cr le h
    cases iN with
    | true => simp [wasmer_instance_call]
    | false =>
      cases nB with
      | none => simp [wasmer_instance_call]
      | some nb =>
        cases pN with
        | true => simp [wasmer_instance_call]
        | false =>
          cases hv : utf8Valid nb with
          | false => simp [wasmer_instance_call, hv] at h
          | true =>
            cases cr with
            | error err => simp [wasmer_instance_call, hv]
            | ok rv =>
              cases rv with
              | nil => simp [wasmer_instance_call, hv] at h
              | cons v rest =>
                cases hm : marshalResultValue v with
                | none => simp [wasmer_instance_call, hv, hm] at h
                | some ret =>
                  cases rb with
                  | nil => simp [wasmer_instance_call, hv, hm] at h
                  | cons r0 rrest =>
                    simp [wasmer_instance_call, hv, hm] at h
  · intro iN nB pN rb le
    cases iN with
    | true => simp [wasmer_instance_call]
    | false =>
      cases nB with
      | none => simp [wasmer_instance_call]
      | some nb =>
        cases pN with
        | true => simp [wasmer_instance_call]
        | false =>
          cases hv : utf8Valid nb with
          | false => simp [wasmer_instance_call, hv]
          | true => simp [wasmer_instance_call, hv]

/-- Witness for C4: a null-bytes instantiation failure leaves the out-pointer
at its pre-state; a null-instance call failure and a successful zero-result
call leave the results buffer at its pre-state. -/
theorem C4_witness :
    (wasmer_instantiate (fun _ _ => Except.error "boom") true [] [] none
      none).2.1 = none ∧
    (wasmer_instance_call true none false [⟨wasmer_value_tag.WASM_I32,
      wasmer_value.I32 5⟩] (Except.ok []) none).results_buf =
      [⟨wasmer_value_tag.WASM_I32, wasmer_value.I32 5⟩] ∧
    (wasmer_instance_call false (some [97]) false [⟨wasmer_value_tag.WASM_I32,
      wasmer_value.I32 5⟩] (Except.ok []) none).results_buf =
      [⟨wasmer_value_tag.WASM_I32, wasmer_value.I32 5⟩] :=
  ⟨C4_failure_leaves_outputs_untouched.1 (fun _ _ => Except.error "boom")
     true [] [] none none rfl,
   C4_failure_leaves_outputs_untouched.2.1 true none false
     [⟨wasmer_value_tag.WASM_I32, wasmer_value.I32 5⟩] (Except.ok []) none rfl,
   C4_failure_leaves_outputs_untouched.2.2 false (some [97]) false
     [⟨wasmer_value_tag.WASM_I32, wasmer_value.I32 5⟩] none⟩

/-- C5: for every call to wasmer_instantiate or
wasmer_instantiate_with_options where the wasm bytes pointer is null or the
byte length is zero, the call returns ERROR with a message stored in the
error channel and does not produce an instance (the out-pointer keeps its
pre-state).  The null pointer is rejected by the explicit guard; the empty
byte string is rejected by the compilation/instantiation stage, which cannot
compile an empty module. -/
theorem C5_null_or_empty_bytes_error
    (oracle : ByteStr → NamespaceMap → Except String Instance)
    (co : ByteStr → MiddlewareChain → Except Unit Module)
    (iio : Module → NamespaceMap → Except String Instance)
    (gio : NamespaceMap)
    (bn : Bool) (b : ByteStr) (imps : List wasmer_import_t)
    (options : CompilationOptions)
    (instOutPre : Option Instance) (lastErrorPre : Option String)
    (h : bn = true ∨ b = []) :
    ((wasmer_instantiate oracle bn b imps instOutPre lastErrorPre).1 =
        wasmer_result_t.WASMER_ERROR ∧
      (wasmer_instantiate oracle bn b imps instOutPre lastErrorPre).2.1 =
        instOutPre ∧
      ∃ msg, (wasmer_instantiate oracle bn b imps instOutPre
        lastErrorPre).2.2 = some msg) ∧
    ((wasmer_instantiate_with_options co iio gio bn b options instOutPre
        lastErrorPre).1 = wasmer_result_t.WASMER_ERROR ∧
      (wasmer_instantiate_with_options co iio gio bn b options instOutPre
        lastErrorPre).2.1 = instOutPre ∧
      ∃ msg, (wasmer_instantiate_with_options co iio gio bn b options
        instOutPre lastErrorPre).2.2 = some msg) := by
  rcases h with h | h
  · subst h
    constructor
    · exact ⟨rfl, rfl, "wasm bytes ptr is null", rfl⟩
    · exact ⟨rfl, rfl, "wasm bytes ptr is null", rfl⟩
  · subst h
    cases bn with
    | true =>
      constructor
      · exact ⟨rfl, rfl, "wasm bytes ptr is null", rfl⟩
      · exact ⟨rfl, rfl, "wasm bytes ptr is null", rfl⟩
    | false =>
      constructor
      · cases hpi : processImports imps [] with
        | error msg => simp [wasmer_instantiate, hpi]
        | ok nsMap =>
          simp [wasmer_instantiate, hpi, runtime_instantiate]
      · simp [wasmer_instantiate_with_options, compile_with]

/-- Witness for C5: the two concrete failure modes — null pointer and empty
byte string — on both entry points. -/
theorem C5_witness :
    (((wasmer_instantiate (fun _ _ => Except.error "e") false [] [] none
        none).1 = wasmer_result_t.WASMER_ERROR ∧
      (wasmer_instantiate (fun _ _ => Except.error "e") false [] [] none
        none).2.1 = none ∧
      ∃ msg, (wasmer_instantiate (fun _ _ => Except.error "e") false [] []
        none none).2.2 = some msg) ∧
    ((wasmer_instantiate_with_options (fun _ _ => Except.error ())
        (fun _ _ => Except.error "e") [] false []
        ⟨0, 0, false, false, false⟩ none none).1 =
          wasmer_result_t.WASMER_ERROR ∧
      (wasmer_instantiate_with_options (fun _ _ => Except.error ())
        (fun _ _ => Except.error "e") [] false []
        ⟨0, 0, false, false, false⟩ none none).2.1 = none ∧
      ∃ msg, (wasmer_instantiate_with_options (fun _ _ => Except.error ())
        (fun _ _ => Except.error "e") [] false []
        ⟨0, 0, false, false, false⟩ none none).2.2 = some msg)) :=
  C5_null_or_empty_bytes_error (fun _ _ => Except.error "e")
    (fun _ _ => Except.error ()) (fun _ _ => Except.error "e") [] false [] []
    ⟨0, 0, false, false, false⟩ none none (Or.inr rfl)

/-- C6: a successful underlying call whose first result value is a 128-bit
vector makes wasmer_instance_call abort the whole process (the unimplemented!
panic in result marshalling) rather than return ERROR with a message — the
error channel is left unchanged; for the four supported kinds (int32, int64,
float32, float64) the result marshalling itself never aborts. -/
theorem C6_v128_result_aborts (nb : ByteStr) (rb : List wasmer_value_t)
    (rest : List Value) (le : Option String) (bits : Nat)
    (hv : utf8Valid nb = true) :
    (wasmer_instance_call false (some nb) false rb
        (Except.ok (Value.V128 bits :: rest)) le =
      ⟨FfiOutcome.panicked "calling function with V128 parameter", le, rb⟩) ∧
    (∀ x : Int, (marshalResultValue (Value.I32 x)).isSome = true ∧
      (marshalResultValue (Value.I64 x)).isSome = true) ∧
    (∀ fbits : Nat, (marshalResultValue (Value.F32 fbits)).isSome = true ∧
      (marshalResultValue (Value.F64 fbits)).isSome = true) := by
  refine ⟨?_, fun x => ⟨rfl, rfl⟩, fun fb => ⟨rfl, rfl⟩⟩
  simp [wasmer_instance_call, hv, marshalResultValue]

/-- Witness for C6 at a concrete valid name and a V128 first result. -/
theorem C6_witness :
    wasmer_instance_call false (some [102]) false []
      (Except.ok [Value.V128 0]) none =
    ⟨FfiOutcome.panicked "calling function with V128 parameter", none, []⟩ :=
  (C6_v128_result_aborts [102] [] [] none 0 (by decide)).1

/-- C7: for every non-null instance, wasmer_instance_exports writes a
snapshot whose length equals the number of exports of the instance, whose
entries appear in the instance's own export-declaration order, each entry
holding the export's name, a shared clone of the export binding, and a
back-pointer equal to the instance pointer passed in; the error channel is
untouched. -/
theorem C7_exports_snapshot (instancePtr : Nat) (inst : Instance)
    (exportsOutPre : Option (List NamedExport)) (lastErrorPre : Option String) :
    ∃ l : List NamedExport,
      (wasmer_instance_exports false instancePtr inst exportsOutPre
        lastErrorPre).exports_out = some l ∧
      (wasmer_instance_exports false instancePtr inst exportsOutPre
        lastErrorPre).last_error = lastErrorPre ∧
      l.length = inst.exports.length ∧
      (∀ i : Nat, l[i]? =
        (inst.exports[i]?).map (fun p => NamedExport.mk p.1 p.2 instancePtr)) := by
  use inst.exports.map (fun p => NamedExport.mk p.1 p.2 instancePtr)
  refine ⟨rfl, rfl, by simp, ?_⟩
  intro i
  simp

/-- C8: for every import list passed to wasmer_instantiate (with non-null
bytes), if any import's module name or import name is not valid UTF-8, the
function returns ERROR with the corresponding conversion message stored in
the error channel and does not instantiate — the out-pointer is untouched and
the import is never silently skipped. -/
theorem C8_invalid_import_names_error
    (oracle : ByteStr → NamespaceMap → Except String Instance)
    (b : ByteStr) (imps : List wasmer_import_t)
    (instOutPre : Option Instance) (lastErrorPre : Option String)
    (h : ∃ imp ∈ imps, utf8Valid imp.module_name = false ∨
      utf8Valid imp.import_name = false) :
    (wasmer_instantiate oracle false b imps instOutPre lastErrorPre).1 =
      wasmer_result_t.WASMER_ERROR ∧
    (wasmer_instantiate oracle false b imps instOutPre lastErrorPre).2.1 =
      instOutPre ∧
    ((wasmer_instantiate oracle false b imps instOutPre lastErrorPre).2.2 =
        some "error converting module name to string" ∨
      (wasmer_instantiate oracle false b imps instOutPre lastErrorPre).2.2 =
        some "error converting import_name to string") := by
  rcases processImports_error_of_invalid imps h [] with ⟨msg, hmsg, hor⟩
  rcases hor with rfl | rfl
  · simp [wasmer_instantiate, hmsg]
  · simp [wasmer_instantiate, hmsg]

/-- Witness for C8: a single import whose module name is the invalid byte
0xFF. -/
theorem C8_witness :
    (wasmer_instantiate (fun _ _ => Except.error "x") false [0]
      [⟨[255], [97], Export.func 0⟩] none none).1 =
      wasmer_result_t.WASMER_ERROR ∧
    (wasmer_instantiate (fun _ _ => Except.error "x") false [0]
      [⟨[255], [97], Export.func 0⟩] none none).2.1 = none ∧
    ((wasmer_instantiate (fun _ _ => Except.error "x") false [0]
        [⟨[255], [97], Export.func 0⟩] none none).2.2 =
      some "error converting module name to string" ∨
      (wasmer_instantiate (fun _ _ => Except.error "x") false [0]
        [⟨[255], [97], Export.func 0⟩] none none).2.2 =
      some "error converting import_name to string") :=
  C8_invalid_import_names_error (fun _ _ => Except.error "x") [0]
    [⟨[255], [97], Export.func 0⟩] none none
    ⟨⟨[255], [97], Export.func 0⟩, by simp, Or.inl (by decide)⟩

/-- C9: for every import sequence accepted by wasmer_instantiate's processing
loop, each resulting namespace contains at most one binding per import name
(its key list has no duplicates), and the binding found for any pair of
module name and import name is that of the LAST import in the sequence
carrying that pair — later registration overwrites earlier. -/
theorem C9_namespace_last_write_wins (imps : List wasmer_import_t)
    (out : NamespaceMap) (h : processImports imps [] = Except.ok out) :
    (∀ m ns, nmLookup out m = some ns → nsKeysNodup ns) ∧
    (∀ m n, nmLookup2 out m n = lastMatch imps m n) := by
  constructor
  · refine processImports_nodup imps [] out ?_ h
    intro m ns hm
    simp [nmLookup] at hm
  · intro m n
    have hx := processImports_lookup imps [] out h m n
    cases hl : lastMatch imps m n with
    | some e => rw [hx, hl]
    | none =>
      rw [hx, hl]
      simp [nmLookup2, nmLookup]

/-- Witness for C9: two imports under the same module name "e" and import
name "f"; the registered binding is the second one's. -/
theorem C9_witness :
    nmLookup2 [([101], [([102], Export.func 2)])] [101] [102] =
      lastMatch [⟨[101], [102], Export.func 1⟩, ⟨[101], [102], Export.func 2⟩]
        [101] [102] :=
  (C9_namespace_last_write_wins
    [⟨[101], [102], Export.func 1⟩, ⟨[101], [102], Export.func 2⟩]
    [([101], [([102], Export.func 2)])] rfl).2 [101] [102]

end Wasmer
